import Mathlib

/-!
Shallow embedding of the machine reconciliation engine of the
machine-api-provider-gcp repository: the reconciler's exists/delete
state transitions, target-pool membership synchronization, restart-policy
resolution, GPU quota validation, the tag/label merge engine and the
machine scope's status-persistence step, together with the googleapi and
machine-controller error models they classify.
-/

/-- Character-list prefix check: pat is a prefix of the first list. -/
def listStartsWith : List Char → List Char → Bool
  | _, [] => true
  | [], _ :: _ => false
  | c :: cs, p :: ps => c == p && listStartsWith cs ps

/-- Character-list substring scan: pat occurs inside s. -/
def listHasSub (s pat : List Char) : Bool :=
  match s with
  | [] => pat.isEmpty
  | _ :: rest => listStartsWith s pat || listHasSub rest pat

/-- Go strings.Contains: true when pat occurs as a substring of s. -/
def strContains (s pat : String) : Bool :=
  listHasSub s.data pat.data

/-- Association-list lookup modelling a Go map read `m[k]` that yields the
zero value "" for missing keys. -/
def lookupD (l : List (String × String)) (k : String) : String :=
  match l.find? (fun p => p.1 == k) with
  | some p => p.2
  | none => ""

/-- Go map[string]string modelled as an association list without duplicate
keys: the head-most binding of a key is its value. -/
abbrev StrMap := List (String × String)

/-- Map read returning an Option, modelling `v, ok := m[k]`. -/
def mapLookup (m : StrMap) (k : String) : Option String :=
  (m.find? (fun p => p.1 == k)).map (fun p => p.2)

/-- Go map assignment `m[k] = v`: the new binding shadows (replaces) any
previous binding of k. -/
def mapSet (m : StrMap) (k v : String) : StrMap :=
  (k, v) :: m.filter (fun p => p.1 != k)

/-- Go `for k, v := range src { dst[k] = v }`. -/
def mapMerge (dst src : StrMap) : StrMap :=
  src.foldl (fun acc p => mapSet acc p.1 p.2) dst

/-- Value a sequence of Go map assignments from the list l would leave bound
to k: the last binding of k in l, if any. -/
def lastBind (l : List (String × String)) (k : String) : Option String :=
  match l with
  | [] => none
  | p :: rest =>
    match lastBind rest k with
    | some v => some v
    | none => if p.1 == k then some p.2 else none

/-- Go map built from a list of key/value pairs by successive assignment. -/
def mapFromList (l : List (String × String)) : StrMap :=
  mapMerge [] l

/-- One entry of googleapi.Error.Errors: a message and a reason string. -/
structure GoogleAPIErrorItem where
  message : String
  reason : String
deriving DecidableEq, Repr

/-- googleapi.Error: an HTTP status code together with itemized errors. -/
structure GoogleAPIError where
  code : Nat
  errors : List GoogleAPIErrorItem
deriving DecidableEq, Repr

/-- Error returned by the compute contract's instance-get call: either a
structured *googleapi.Error or some other Go error (the Go type switch in
the classifiers below only recognizes the former). -/
inductive InstGetErr where
  | api (e : GoogleAPIError)
  | other (msg : String)
deriving DecidableEq, Repr

/-- Go error values produced by the reconciler, as far as errors.As can
classify them: a *machinecontroller.MachineError with the
InvalidConfiguration reason, a *RequeueAfterError, or a plain error built
with errors.New / fmt.Errorf without the wrapping verb (fmt.Errorf with a
non-wrapping verb yields a plain error whose chain does not retain the
wrapped error's type). -/
inductive GoErr where
  | invalidMachineConfiguration (msg : String)
  | requeueAfter (seconds : Nat)
  | basic (msg : String)
deriving DecidableEq, Repr

/-- isInvalidMachineConfigurationError: errors.As succeeds on a (possibly
nil) error exactly when a MachineError with reason InvalidConfiguration is
in its chain. -/
def isInvalidMachineConfigurationError : Option GoErr → Bool
  | some (GoErr.invalidMachineConfiguration _) => true
  | _ => false

/-- Message text of a reconciler error, as %v formatting would render it. -/
def goErrMsg : GoErr → String
  | GoErr.invalidMachineConfiguration m => m
  | GoErr.requeueAfter s => "requeue in: " ++ toString s ++ "s"
  | GoErr.basic m => m

/-- restartPolicyToBool from the reconciler: resolves the provider-spec
restart policy to the instance scheduling's automatic-restart flag. -/
def restartPolicyToBool (policy : String) (preemptible : Bool) :
    Except String (Option Bool) :=
  if policy.length = 0 then
    Except.ok none
  else if policy == "Always" then
    if preemptible then
      Except.error "preemptible instances cannot be automatically restarted"
    else
      Except.ok (some true)
  else if policy == "Never" then
    Except.ok (some false)
  else
    Except.error ("unrecognized restart policy: " ++ policy)

theorem restartPolicyToBool_empty_iff (policy : String) :
    policy ≠ "" → policy.length ≠ 0 := by
  intro h hlen
  apply h
  cases policy with
  | mk data =>
    cases data with
    | nil => rfl
    | cons c cs => simp [String.length] at hlen

/-- C3: restartPolicyToBool maps ("Always", preemptible) to the explicit
preemptible error, ("Always", non-preemptible) to a pointer to true,
("Never", anything) to a pointer to false, ("", anything) to nil value and
nil error, and any other policy to an "unrecognized restart policy" error. -/
theorem restartPolicyToBool_spec (p : Bool) (policy : String) :
    restartPolicyToBool "Always" true =
      Except.error "preemptible instances cannot be automatically restarted" ∧
    restartPolicyToBool "Always" false = Except.ok (some true) ∧
    restartPolicyToBool "Never" p = Except.ok (some false) ∧
    restartPolicyToBool "" p = Except.ok none ∧
    (policy ≠ "" → policy ≠ "Always" → policy ≠ "Never" →
      restartPolicyToBool policy p =
        Except.error ("unrecognized restart policy: " ++ policy)) := by
  refine ⟨rfl, rfl, rfl, rfl, ?_⟩
  intro hne hA hN
  have hlen := restartPolicyToBool_empty_iff policy hne
  have hA' : (policy == "Always") = false := beq_eq_false_iff_ne.mpr hA
  have hN' : (policy == "Never") = false := beq_eq_false_iff_ne.mpr hN
  simp [restartPolicyToBool, hlen, hA', hN']

/-- Witness for C3: the generic-policy case is satisfiable, e.g. at the
policy string "Sometimes". -/
theorem restartPolicyToBool_spec_witness :
    restartPolicyToBool "Sometimes" false =
      Except.error ("unrecognized restart policy: " ++ "Sometimes") := by
  exact (restartPolicyToBool_spec false "Sometimes").2.2.2.2
    (by decide) (by decide) (by decide)

/-- Target pool as returned by the compute contract: the list of instance
self-links it currently contains. -/
structure TargetPool where
  instances : List String
deriving DecidableEq, Repr

/-- Fixed per-accelerator information of an A2 machine type. -/
structure GpuInfo where
  type : String
  count : Int
deriving DecidableEq, Repr

/-- One quota entry of a region: metric name, current usage and limit
(already truncated to integers as the reconciler does). -/
structure GCPQuota where
  metric : String
  usage : Int
  limit : Int
deriving DecidableEq, Repr

/-- Region as returned by the compute contract: its quota list. -/
structure GCPRegion where
  quotas : List GCPQuota
deriving DecidableEq, Repr

/-- Compute capability contract: the outcomes of the cloud calls the
reconciler issues, as a deterministic test double. -/
structure ComputeSvc where
  instancesGet : String → String → String → Except InstGetErr Unit
  targetPoolsGet : String → String → String → Except String TargetPool
  targetPoolsAddInstance : String → String → String → String → Except String Unit
  targetPoolsRemoveInstance : String → String → String → String → Except String Unit
  instancesDelete : String → String → String → Except String Unit
  regionGet : String → String → Except String GCPRegion
  acceleratorTypeGet : String → String → String → Except String Unit
  gpuCompatibleMachineTypesList :
    String → String → (List (String × GpuInfo)) × (List String)
  unregisterControlPlaneOutcome : Except String Unit

/-- GPU accelerator entry of the provider spec. -/
structure GCPGPUConfig where
  type : String
  count : Int
deriving DecidableEq, Repr

/-- The fields of GCPMachineProviderSpec the embedded operations consult. -/
structure GCPMachineProviderSpec where
  projectID : String
  zone : String
  region : String
  machineType : String
  targetPools : List String
  gpus : List GCPGPUConfig
  preemptible : Bool
  restartPolicy : String
  metadata : List (String × Option String)
deriving Repr

/-- The fields of the Machine resource the embedded operations consult. -/
structure GCPMachine where
  name : String
  labels : List (String × String)
  providerID : Option String
deriving Repr

/-- machinev1.MachineClusterIDLabel. -/
def machineClusterIDLabel : String := "machine.openshift.io/cluster-api-cluster"

/-- openshiftMachineRoleLabel constant of the reconciler. -/
def openshiftMachineRoleLabel : String := "machine.openshift.io/cluster-api-machine-role"

/-- masterMachineRole constant of the reconciler. -/
def masterMachineRole : String := "master"

/-- requeueAfterSeconds constant of the reconciler. -/
def requeueAfterSeconds : Nat := 20

/-- instanceLinkFmt applied to project, zone and name. -/
def fmtInstanceSelfLink (project zone name : String) : String :=
  "https://www.googleapis.com/compute/v1/projects/" ++ project ++
    "/zones/" ++ zone ++ "/instances/" ++ name

/-- validateMachine: every target pool name must be non-empty and the
machine must carry the cluster-membership label. -/
def validateMachine (machine : GCPMachine) (providerSpec : GCPMachineProviderSpec) :
    Option GoErr :=
  if providerSpec.targetPools.any (fun pool => pool == "") then
    some (GoErr.invalidMachineConfiguration "all target pools must have valid name")
  else if lookupD machine.labels machineClusterIDLabel == "" then
    some (GoErr.invalidMachineConfiguration
      ("machine is missing \x22" ++ machineClusterIDLabel ++ "\x22 label"))
  else
    none

/-- isNotFoundError: the Go type switch recognizes *googleapi.Error with
code 404. -/
def isNotFoundError : InstGetErr → Bool
  | InstGetErr.api e => e.code == 404
  | InstGetErr.other _ => false

/-- isProjectNotFoundError: a *googleapi.Error with code 404 carrying an
item whose message contains 'projects/(projectID)' and whose reason is
notFound. -/
def isProjectNotFoundError (err : InstGetErr) (projectID : String) : Bool :=
  match err with
  | InstGetErr.api e =>
    e.code == 404 &&
      e.errors.any (fun i =>
        strContains i.message ("\x27projects/" ++ projectID ++ "\x27") &&
          i.reason == "notFound")
  | InstGetErr.other _ => false

/-- isInvalidZone: a *googleapi.Error with code 400 carrying an item whose
message contains 'zone' and whose reason is invalid. -/
def isInvalidZone (err : InstGetErr) : Bool :=
  match err with
  | InstGetErr.api e =>
    e.code == 400 &&
      e.errors.any (fun i =>
        strContains i.message "\x27zone\x27" && i.reason == "invalid")
  | InstGetErr.other _ => false

/-- Message text of an instance-get error, for %v wrapping. -/
def instGetErrMsg : InstGetErr → String
  | InstGetErr.api e => "googleapi: Error " ++ toString e.code
  | InstGetErr.other m => m

/-- Reconciler.exists: validates the spec (a failure is wrapped with the
non-wrapping %v verb, producing a plain error), queries the compute
contract for the named instance and classifies the resulting error. -/
def reconcilerExists (svc : ComputeSvc) (machine : GCPMachine)
    (providerSpec : GCPMachineProviderSpec) (projectID : String) :
    Bool × Option GoErr :=
  match validateMachine machine providerSpec with
  | some e =>
    (false, some (GoErr.basic ("failed validating machine provider spec: " ++ goErrMsg e)))
  | none =>
    match svc.instancesGet projectID providerSpec.zone machine.name with
    | Except.ok _ => (true, none)
    | Except.error err =>
      if isProjectNotFoundError err projectID then
        (false, some (GoErr.invalidMachineConfiguration
          (projectID ++ ": Project does not exist")))
      else if isInvalidZone err then
        (false, some (GoErr.invalidMachineConfiguration
          (providerSpec.zone ++ ": Zone does not exist")))
      else if isNotFoundError err then
        (false, none)
      else
        (false, some (GoErr.basic ("error getting running instances: " ++ instGetErrMsg err)))

/-- A provider spec with no target pools, used as a concrete input. -/
def specBasic : GCPMachineProviderSpec :=
  { projectID := "proj", zone := "z1", region := "r1",
    machineType := "n1-standard-1", targetPools := [], gpus := [],
    preemptible := false, restartPolicy := "", metadata := [] }

/-- A machine carrying the cluster-membership label. -/
def machineValid : GCPMachine :=
  { name := "m1", labels := [(machineClusterIDLabel, "CLUSTERID")],
    providerID := none }

/-- A compute service whose instance-get fails with the given error and
whose remaining calls succeed trivially. -/
def svcGetErr (e : InstGetErr) : ComputeSvc :=
  { instancesGet := fun _ _ _ => Except.error e,
    targetPoolsGet := fun _ _ _ => Except.ok ⟨[]⟩,
    targetPoolsAddInstance := fun _ _ _ _ => Except.ok (),
    targetPoolsRemoveInstance := fun _ _ _ _ => Except.ok (),
    instancesDelete := fun _ _ _ => Except.ok (),
    regionGet := fun _ _ => Except.ok ⟨[]⟩,
    acceleratorTypeGet := fun _ _ _ => Except.ok (),
    gpuCompatibleMachineTypesList := fun _ _ => ([], []),
    unregisterControlPlaneOutcome := Except.ok () }

/-- A compute service whose calls all succeed. -/
def svcAllOk : ComputeSvc :=
  { instancesGet := fun _ _ _ => Except.ok (),
    targetPoolsGet := fun _ _ _ => Except.ok ⟨[]⟩,
    targetPoolsAddInstance := fun _ _ _ _ => Except.ok (),
    targetPoolsRemoveInstance := fun _ _ _ _ => Except.ok (),
    instancesDelete := fun _ _ _ => Except.ok (),
    regionGet := fun _ _ => Except.ok ⟨[]⟩,
    acceleratorTypeGet := fun _ _ _ => Except.ok (),
    gpuCompatibleMachineTypesList := fun _ _ => ([], []),
    unregisterControlPlaneOutcome := Except.ok () }

/-- An HTTP-404-shaped googleapi error whose message/reason content marks
an invalid zone (reason invalid, message naming the zone field). -/
def errZoneInvalid404 : InstGetErr :=
  InstGetErr.api
    { code := 404,
      errors := [{ message := "Invalid value for field \x27zone\x27: \x27nozone\x27",
                   reason := "invalid" }] }

/-- The same invalid-zone message/reason content at HTTP 400, the shape the
code actually recognizes. -/
def errZoneInvalid400 : InstGetErr :=
  InstGetErr.api
    { code := 400,
      errors := [{ message := "Invalid value for field \x27zone\x27: \x27nozone\x27",
                   reason := "invalid" }] }

/-- A project-not-found googleapi error at HTTP 404. -/
def errProjNotFound : InstGetErr :=
  InstGetErr.api
    { code := 404,
      errors := [{ message := "The resource \x27projects/proj\x27 was not found",
                   reason := "notFound" }] }

/-- C1 counterexample: an invalid-zone error given the HTTP-404 shape the
claim asserts all classifications are made on is treated as a generic
not-found — exists() returns (false, nil) — rather than as a configuration
error; the identical message/reason content is only classified invalid-zone
at HTTP 400. -/
theorem exists_invalidZone404_counterexample :
    isNotFoundError errZoneInvalid404 = true ∧
    isInvalidZone errZoneInvalid404 = false ∧
    isInvalidZone errZoneInvalid400 = true ∧
    reconcilerExists (svcGetErr errZoneInvalid404) machineValid specBasic "proj" =
      (false, none) ∧
    reconcilerExists (svcGetErr errZoneInvalid400) machineValid specBasic "proj" =
      (false, some (GoErr.invalidMachineConfiguration ("z1: Zone does not exist"))) := by
  refine ⟨by decide, by decide, by decide, by decide, by decide⟩

/-- C1 amended: on a validated machine whose instance-get fails, exists()
classifies project-not-found (HTTP 404 with notFound reason and the
project named in the message) as a configuration error, invalid-zone
(HTTP 400 with invalid reason and the zone field named in the message) as
a configuration error, any other HTTP 404 as (false, nil), and everything
else as a wrapped plain error. -/
theorem exists_classification (svc : ComputeSvc) (machine : GCPMachine)
    (providerSpec : GCPMachineProviderSpec) (projectID : String) (err : InstGetErr)
    (hval : validateMachine machine providerSpec = none)
    (hget : svc.instancesGet projectID providerSpec.zone machine.name = Except.error err) :
    (isProjectNotFoundError err projectID = true →
      reconcilerExists svc machine providerSpec projectID =
        (false, some (GoErr.invalidMachineConfiguration
          (projectID ++ ": Project does not exist")))) ∧
    (isProjectNotFoundError err projectID = false → isInvalidZone err = true →
      reconcilerExists svc machine providerSpec projectID =
        (false, some (GoErr.invalidMachineConfiguration
          (providerSpec.zone ++ ": Zone does not exist")))) ∧
    (isProjectNotFoundError err projectID = false → isInvalidZone err = false →
      isNotFoundError err = true →
      reconcilerExists svc machine providerSpec projectID = (false, none)) ∧
    (isProjectNotFoundError err projectID = false → isInvalidZone err = false →
      isNotFoundError err = false →
      reconcilerExists svc machine providerSpec projectID =
        (false, some (GoErr.basic
          ("error getting running instances: " ++ instGetErrMsg err)))) := by
  unfold reconcilerExists
  rw [hval, hget]
  refine ⟨?_, ?_, ?_, ?_⟩
  · intro h1; simp [h1]
  · intro h1 h2; simp [h1, h2]
  · intro h1 h2 h3; simp [h1, h2, h3]
  · intro h1 h2 h3; simp [h1, h2, h3]

/-- Witness for C1's amended theorem: the project-not-found case at a
concrete 404 error. -/
theorem exists_classification_witness :
    reconcilerExists (svcGetErr errProjNotFound) machineValid specBasic "proj" =
      (false, some (GoErr.invalidMachineConfiguration
        ("proj" ++ ": Project does not exist"))) := by
  exact (exists_classification (svcGetErr errProjNotFound) machineValid specBasic
    "proj" errProjNotFound (by decide) rfl).1 (by decide)

/-- A provider spec carrying an empty target-pool name, which fails
validation. -/
def specEmptyPool : GCPMachineProviderSpec :=
  { specBasic with targetPools := [""] }

/-- C9 counterexample: a machine whose spec fails validation (an empty
target-pool name) makes exists() return an error, but that error is NOT
recognized by the InvalidConfiguration classifier, because the wrapping
uses the non-wrapping %v verb even though validateMachine itself produced
an InvalidConfiguration error. -/
theorem exists_validationErr_counterexample :
    validateMachine machineValid specEmptyPool =
      some (GoErr.invalidMachineConfiguration "all target pools must have valid name") ∧
    isInvalidMachineConfigurationError
      (validateMachine machineValid specEmptyPool) = true ∧
    (reconcilerExists svcAllOk machineValid specEmptyPool "proj").2.isSome = true ∧
    isInvalidMachineConfigurationError
      (reconcilerExists svcAllOk machineValid specEmptyPool "proj").2 = false := by
  refine ⟨by decide, by decide, by decide, by decide⟩

/-- C9 amended: whenever validateMachine rejects a machine it produces an
InvalidConfiguration error, and exists() returns a non-nil error wrapping
that failure's message — but the returned error is a plain error the
InvalidConfiguration classifier does not recognize. -/
theorem exists_validationErr (svc : ComputeSvc) (machine : GCPMachine)
    (providerSpec : GCPMachineProviderSpec) (projectID : String) (e : GoErr)
    (hval : validateMachine machine providerSpec = some e) :
    isInvalidMachineConfigurationError (some e) = true ∧
    reconcilerExists svc machine providerSpec projectID =
      (false, some (GoErr.basic
        ("failed validating machine provider spec: " ++ goErrMsg e))) ∧
    isInvalidMachineConfigurationError
      (reconcilerExists svc machine providerSpec projectID).2 = false := by
  have hinv : isInvalidMachineConfigurationError (some e) = true := by
    unfold validateMachine at hval
    split at hval
    · injection hval with h; rw [← h]; rfl
    · split at hval
      · injection hval with h; rw [← h]; rfl
      · exact absurd hval (by simp)
  have hres : reconcilerExists svc machine providerSpec projectID =
      (false, some (GoErr.basic
        ("failed validating machine provider spec: " ++ goErrMsg e))) := by
    unfold reconcilerExists
    rw [hval]
  exact ⟨hinv, hres, by rw [hres]; rfl⟩

/-- Witness for C9's amended theorem at the concrete empty-pool spec. -/
theorem exists_validationErr_witness :
    reconcilerExists svcAllOk machineValid specEmptyPool "proj" =
      (false, some (GoErr.basic
        ("failed validating machine provider spec: " ++
          goErrMsg (GoErr.invalidMachineConfiguration
            "all target pools must have valid name")))) := by
  exact (exists_validationErr svcAllOk machineValid specEmptyPool "proj"
    (GoErr.invalidMachineConfiguration "all target pools must have valid name")
    (by decide)).2.1

/-- Reconciler.instanceExistsInPool: fetches the pool and scans its
instance links for equality with the given link. -/
def instanceExistsInPool (svc : ComputeSvc) (projectID region : String)
    (instanceLink pool : String) : Except String Bool :=
  match svc.targetPoolsGet projectID region pool with
  | Except.error e => Except.error ("unable to get targetpool: " ++ e)
  | Except.ok tp => Except.ok (tp.instances.any (fun link => instanceLink == link))

/-- Loop body of Reconciler.processTargetPools, instrumented to return the
list of pools on which the mutating action was invoked (in order). -/
def processTargetPoolsAux (svc : ComputeSvc) (projectID region : String)
    (desired : Bool) (poolFunc : String → String → Except String Unit)
    (instanceSelfLink : String) : List String → Except String (List String)
  | [] => Except.ok []
  | pool :: rest =>
    match instanceExistsInPool svc projectID region instanceSelfLink pool with
    | Except.error e => Except.error e
    | Except.ok present =>
      if present != desired then
        match poolFunc instanceSelfLink pool with
        | Except.error e => Except.error e
        | Except.ok _ =>
          match processTargetPoolsAux svc projectID region desired poolFunc
              instanceSelfLink rest with
          | Except.error e => Except.error e
          | Except.ok log => Except.ok (pool :: log)
      else
        processTargetPoolsAux svc projectID region desired poolFunc
          instanceSelfLink rest

/-- Reconciler.processTargetPools: for each named pool, checks current
membership and invokes the action only when it differs from desired. -/
def processTargetPools (svc : ComputeSvc) (projectID : String)
    (providerSpec : GCPMachineProviderSpec) (machineName : String)
    (desired : Bool) (poolFunc : String → String → Except String Unit) :
    Except String (List String) :=
  processTargetPoolsAux svc projectID providerSpec.region desired poolFunc
    (fmtInstanceSelfLink projectID providerSpec.zone machineName)
    providerSpec.targetPools

/-- Membership of a link in a pool as the scan observes it (meaningful when
the pool fetch succeeds). -/
def poolMembership (svc : ComputeSvc) (projectID region link pool : String) : Bool :=
  match svc.targetPoolsGet projectID region pool with
  | Except.ok tp => tp.instances.any (fun l => link == l)
  | Except.error _ => false

theorem processTargetPoolsAux_filter (svc : ComputeSvc) (projectID region : String)
    (desired : Bool) (poolFunc : String → String → Except String Unit)
    (link : String) (pools : List String)
    (hget : ∀ p ∈ pools, ∃ tp, svc.targetPoolsGet projectID region p = Except.ok tp)
    (hact : ∀ l p, poolFunc l p = Except.ok ()) :
    processTargetPoolsAux svc projectID region desired poolFunc link pools =
      Except.ok (pools.filter
        (fun p => poolMembership svc projectID region link p != desired)) := by
  induction pools with
  | nil => rfl
  | cons pool rest ih =>
    obtain ⟨tp, htp⟩ := hget pool (List.mem_cons_self pool rest)
    have hrest := ih (fun p hp => hget p (List.mem_cons_of_mem pool hp))
    have hmem : poolMembership svc projectID region link pool =
        tp.instances.any (fun l => link == l) := by
      unfold poolMembership
      rw [htp]
    unfold processTargetPoolsAux
    unfold instanceExistsInPool
    rw [htp]
    simp only [List.filter_cons, hmem]
    by_cases hcase : (tp.instances.any (fun l => link == l) != desired) = true
    · rw [if_pos hcase, hact link pool, hrest, if_pos hcase]
    · rw [if_neg hcase, hrest, if_neg hcase]

/-- C4: whenever every pool fetch succeeds and the action succeeds,
processTargetPools invokes the mutating action exactly on the pools whose
scanned membership differs from the desired flag (once per such pool, in
order) — in particular a pool already in the desired state triggers no
mutating call, and once every pool's membership matches desired a re-run
performs no mutating call at all. -/
theorem processTargetPools_reconcile (svc : ComputeSvc) (projectID : String)
    (providerSpec : GCPMachineProviderSpec) (machineName : String)
    (desired : Bool) (poolFunc : String → String → Except String Unit)
    (hget : ∀ p ∈ providerSpec.targetPools,
      ∃ tp, svc.targetPoolsGet projectID providerSpec.region p = Except.ok tp)
    (hact : ∀ l p, poolFunc l p = Except.ok ()) :
    processTargetPools svc projectID providerSpec machineName desired poolFunc =
      Except.ok (providerSpec.targetPools.filter
        (fun p => poolMembership svc projectID providerSpec.region
          (fmtInstanceSelfLink projectID providerSpec.zone machineName) p != desired)) ∧
    ((∀ p ∈ providerSpec.targetPools,
        poolMembership svc projectID providerSpec.region
          (fmtInstanceSelfLink projectID providerSpec.zone machineName) p = desired) →
      processTargetPools svc projectID providerSpec machineName desired poolFunc =
        Except.ok []) := by
  have hmain := processTargetPoolsAux_filter svc projectID providerSpec.region
    desired poolFunc
    (fmtInstanceSelfLink projectID providerSpec.zone machineName)
    providerSpec.targetPools hget hact
  refine ⟨hmain, ?_⟩
  intro hconv
  rw [processTargetPools, hmain]
  congr 1
  rw [List.filter_eq_nil_iff]
  intro p hp
  rw [hconv p hp]
  simp

/-- Reconciler.deleteInstanceFromTargetPool: issues the remove-instance
call and wraps its failure. -/
def deleteInstanceFromTargetPool (svc : ComputeSvc)
    (projectID region machineName : String)
    (instanceLink pool : String) : Except String Unit :=
  match svc.targetPoolsRemoveInstance projectID region pool instanceLink with
  | Except.error e =>
    Except.error ("failed to remove instance " ++ machineName ++
      " from target pool " ++ pool ++ ": " ++ e)
  | Except.ok _ => Except.ok ()

/-- Reconciler.delete: removes the instance from target pools, checks
existence (refusing when the classification is InvalidConfiguration while a
provider ID is still set), no-ops when the instance is gone, unregisters a
control-plane machine from its instance group, then issues the delete call
and returns the requeue-after signal on success. The second component
records whether the instances-delete call was issued. -/
def reconcilerDelete (svc : ComputeSvc) (machine : GCPMachine)
    (providerSpec : GCPMachineProviderSpec) (projectID : String) :
    Option GoErr × Bool :=
  match processTargetPools svc projectID providerSpec machine.name false
      (deleteInstanceFromTargetPool svc projectID providerSpec.region machine.name) with
  | Except.error e => (some (GoErr.basic e), false)
  | Except.ok _ =>
    let ex := reconcilerExists svc machine providerSpec projectID
    if machine.providerID.isSome && isInvalidMachineConfigurationError ex.2 then
      (some (GoErr.basic ("the machine " ++ machine.name ++
        " has invalid configuration, but already exists, make the configuration of the machine valid for the deletion to be successful")), false)
    else if ex.2.isSome && !isInvalidMachineConfigurationError ex.2 then
      (ex.2, false)
    else if !ex.1 then
      (none, false)
    else
      match
        (if lookupD machine.labels openshiftMachineRoleLabel == masterMachineRole then
          match svc.unregisterControlPlaneOutcome with
          | Except.error e => some (GoErr.basic (machine.name ++
              ": failed to unregister instance from instance group: " ++ e))
          | Except.ok _ => none
        else none) with
      | some e => (some e, false)
      | none =>
        match svc.instancesDelete projectID providerSpec.zone machine.name with
        | Except.error e =>
          (some (GoErr.basic ("failed to delete instance via compute service: " ++ e)), true)
        | Except.ok _ => (some (GoErr.requeueAfter requeueAfterSeconds), true)

theorem exists_true_none (svc : ComputeSvc) (machine : GCPMachine)
    (providerSpec : GCPMachineProviderSpec) (projectID : String) :
    (reconcilerExists svc machine providerSpec projectID).1 = true →
    reconcilerExists svc machine providerSpec projectID = (true, none) := by
  unfold reconcilerExists
  split
  · intro h; simp at h
  · split
    · intro _; rfl
    · split
      · intro h; simp at h
      · split
        · intro h; simp at h
        · split
          · intro h; simp at h
          · intro h; simp at h

/-- C2: delete() refuses (without issuing the instance-delete call) when the
existence check classifies as InvalidConfiguration while a provider ID is
still set; the same classification with no provider ID lets deletion
proceed to the no-op path; a non-existing instance makes delete() a no-op
success; and a successful instance-delete call returns the
requeue-after-fixed-delay signal, never plain success. An
InvalidConfiguration classification only arises with existence reported
false. -/
theorem delete_behavior :
    (∀ (svc : ComputeSvc) (machine : GCPMachine)
        (providerSpec : GCPMachineProviderSpec) (projectID : String)
        (log : List String) (e : GoErr),
      processTargetPools svc projectID providerSpec machine.name false
          (deleteInstanceFromTargetPool svc projectID providerSpec.region machine.name) =
        Except.ok log →
      reconcilerExists svc machine providerSpec projectID = (false, some e) →
      isInvalidMachineConfigurationError (some e) = true →
      machine.providerID.isSome = true →
      reconcilerDelete svc machine providerSpec projectID =
        (some (GoErr.basic ("the machine " ++ machine.name ++
          " has invalid configuration, but already exists, make the configuration of the machine valid for the deletion to be successful")), false)) ∧
    (∀ (svc : ComputeSvc) (machine : GCPMachine)
        (providerSpec : GCPMachineProviderSpec) (projectID : String)
        (log : List String) (e : GoErr),
      processTargetPools svc projectID providerSpec machine.name false
          (deleteInstanceFromTargetPool svc projectID providerSpec.region machine.name) =
        Except.ok log →
      reconcilerExists svc machine providerSpec projectID = (false, some e) →
      isInvalidMachineConfigurationError (some e) = true →
      machine.providerID = none →
      reconcilerDelete svc machine providerSpec projectID = (none, false)) ∧
    (∀ (svc : ComputeSvc) (machine : GCPMachine)
        (providerSpec : GCPMachineProviderSpec) (projectID : String)
        (log : List String),
      processTargetPools svc projectID providerSpec machine.name false
          (deleteInstanceFromTargetPool svc projectID providerSpec.region machine.name) =
        Except.ok log →
      reconcilerExists svc machine providerSpec projectID = (false, none) →
      reconcilerDelete svc machine providerSpec projectID = (none, false)) ∧
    (∀ (svc : ComputeSvc) (machine : GCPMachine)
        (providerSpec : GCPMachineProviderSpec) (projectID : String)
        (log : List String),
      processTargetPools svc projectID providerSpec machine.name false
          (deleteInstanceFromTargetPool svc projectID providerSpec.region machine.name) =
        Except.ok log →
      reconcilerExists svc machine providerSpec projectID = (true, none) →
      lookupD machine.labels openshiftMachineRoleLabel ≠ masterMachineRole →
      svc.instancesDelete projectID providerSpec.zone machine.name = Except.ok () →
      reconcilerDelete svc machine providerSpec projectID =
        (some (GoErr.requeueAfter requeueAfterSeconds), true)) ∧
    (∀ (svc : ComputeSvc) (machine : GCPMachine)
        (providerSpec : GCPMachineProviderSpec) (projectID : String),
      isInvalidMachineConfigurationError
          (reconcilerExists svc machine providerSpec projectID).2 = true →
      (reconcilerExists svc machine providerSpec projectID).1 = false) := by
  refine ⟨?_, ?_, ?_, ?_, ?_⟩
  · intro svc machine providerSpec projectID log e hpools hex hinv hprov
    unfold reconcilerDelete
    rw [hpools]
    simp only [hex, hprov, hinv]
    rfl
  · intro svc machine providerSpec projectID log e hpools hex hinv hprov
    unfold reconcilerDelete
    rw [hpools]
    simp only [hex, hprov, hinv]
    rfl
  · intro svc machine providerSpec projectID log hpools hex
    unfold reconcilerDelete
    rw [hpools]
    simp only [hex]
    simp [isInvalidMachineConfigurationError]
  · intro svc machine providerSpec projectID log hpools hex hrole hdel
    have hrole' : (lookupD machine.labels openshiftMachineRoleLabel ==
        masterMachineRole) = false := beq_eq_false_iff_ne.mpr hrole
    unfold reconcilerDelete
    rw [hpools]
    simp only [hex, hrole', if_false, Bool.false_eq_true]
    simp only [isInvalidMachineConfigurationError, Bool.and_false,
      Option.isSome_none, Bool.false_and, Bool.not_true]
    rw [hdel]
    rfl
  · intro svc machine providerSpec projectID hinv
    cases hr : (reconcilerExists svc machine providerSpec projectID).1 with
    | false => rfl
    | true =>
      have := exists_true_none svc machine providerSpec projectID hr
      rw [this] at hinv
      simp [isInvalidMachineConfigurationError] at hinv

/-- A provider spec naming two target pools. -/
def specPools : GCPMachineProviderSpec :=
  { specBasic with targetPools := ["p1", "p2"] }

/-- A compute service where pool p1 contains the machine's self-link and
pool p2 does not. -/
def svcPools : ComputeSvc :=
  { svcAllOk with
    targetPoolsGet := fun _ _ p =>
      Except.ok (if p == "p1" then ⟨[fmtInstanceSelfLink "proj" "z1" "m1"]⟩ else ⟨[]⟩) }

/-- Witness for C4: with p1 already a member and p2 not, desiring
membership mutates exactly p2. -/
theorem processTargetPools_reconcile_witness :
    processTargetPools svcPools "proj" specPools "m1" true
      (fun _ _ => Except.ok ()) = Except.ok ["p2"] := by
  rw [(processTargetPools_reconcile svcPools "proj" specPools "m1" true
    (fun _ _ => Except.ok ())
    (fun p _ => ⟨_, rfl⟩) (fun _ _ => rfl)).1]
  rfl

/-- The valid machine, additionally carrying a provider ID. -/
def machineWithPID : GCPMachine :=
  { machineValid with providerID := some "gce://proj/z1/m1" }

/-- A generic 404 error with no recognized message/reason content. -/
def errGeneric404 : InstGetErr :=
  InstGetErr.api { code := 404, errors := [] }

/-- Witness for C2: all four delete behaviors at concrete inputs — the
refusal with a provider ID, the proceed-to-no-op without one, the no-op on
a plainly missing instance, and the requeue signal on successful delete. -/
theorem delete_behavior_witness :
    reconcilerDelete (svcGetErr errProjNotFound) machineWithPID specBasic "proj" =
      (some (GoErr.basic ("the machine " ++ "m1" ++
        " has invalid configuration, but already exists, make the configuration of the machine valid for the deletion to be successful")), false) ∧
    reconcilerDelete (svcGetErr errProjNotFound) machineValid specBasic "proj" =
      (none, false) ∧
    reconcilerDelete (svcGetErr errGeneric404) machineValid specBasic "proj" =
      (none, false) ∧
    reconcilerDelete svcAllOk machineValid specBasic "proj" =
      (some (GoErr.requeueAfter requeueAfterSeconds), true) := by
  refine ⟨?_, ?_, ?_, ?_⟩
  · exact delete_behavior.1 (svcGetErr errProjNotFound) machineWithPID specBasic
      "proj" [] (GoErr.invalidMachineConfiguration ("proj" ++ ": Project does not exist"))
      rfl (by decide) rfl rfl
  · exact delete_behavior.2.1 (svcGetErr errProjNotFound) machineValid specBasic
      "proj" [] (GoErr.invalidMachineConfiguration ("proj" ++ ": Project does not exist"))
      rfl (by decide) rfl rfl
  · exact delete_behavior.2.2.1 (svcGetErr errGeneric404) machineValid specBasic
      "proj" [] rfl (by decide)
  · exact delete_behavior.2.2.2.1 svcAllOk machineValid specBasic "proj" [] rfl
      (by decide) (by decide) rfl

theorem mapLookup_mapSet_self (m : StrMap) (k v : String) :
    mapLookup (mapSet m k v) k = some v := by
  simp [mapLookup, mapSet, List.find?]

theorem find?_filter_ne (m : StrMap) (k k' : String) (h : k' ≠ k) :
    (m.filter (fun p => p.1 != k)).find? (fun p => p.1 == k') =
      m.find? (fun p => p.1 == k') := by
  induction m with
  | nil => rfl
  | cons p rest ih =>
    by_cases hpk : p.1 = k
    · have h1 : (p.1 != k) = false := by simp [hpk]
      have h2 : (p.1 == k') = false := by
        apply beq_eq_false_iff_ne.mpr
        rw [hpk]
        exact fun hkk => h hkk.symm
      simp only [List.filter_cons, h1, List.find?_cons, h2]
      simp only [Bool.false_eq_true, if_false, cond_false]
      exact ih
    · have h1 : (p.1 != k) = true := by simp [hpk]
      by_cases hpk' : p.1 = k'
      · have h2 : (p.1 == k') = true := by simp [hpk']
        simp [List.filter_cons, h1, List.find?_cons, h2]
      · have h2 : (p.1 == k') = false := by simp [hpk']
        simp only [List.filter_cons, h1, if_true, List.find?_cons, h2]
        exact ih

theorem mapLookup_mapSet_ne (m : StrMap) (k v k' : String) (h : k' ≠ k) :
    mapLookup (mapSet m k v) k' = mapLookup m k' := by
  have hk : (k == k') = false :=
    beq_eq_false_iff_ne.mpr (fun hkk => h hkk.symm)
  simp only [mapLookup, mapSet, List.find?_cons, hk, cond_false]
  rw [find?_filter_ne m k k' h]

theorem mapMerge_cons (dst : StrMap) (p : String × String) (rest : StrMap) :
    mapMerge dst (p :: rest) = mapMerge (mapSet dst p.1 p.2) rest := rfl

theorem mapLookup_mapMerge (src : StrMap) (dst : StrMap) (k : String) :
    mapLookup (mapMerge dst src) k =
      match lastBind src k with
      | some v => some v
      | none => mapLookup dst k := by
  induction src generalizing dst with
  | nil => rfl
  | cons p rest ih =>
    rw [mapMerge_cons, ih (mapSet dst p.1 p.2)]
    cases hrest : lastBind rest k with
    | some v => simp [lastBind, hrest]
    | none =>
      by_cases hpk : p.1 = k
      · subst hpk
        simp [lastBind, hrest, mapLookup_mapSet_self]
      · have hb : (p.1 == k) = false := beq_eq_false_iff_ne.mpr hpk
        simp only [lastBind, hrest, hb, Bool.false_eq_true, if_false]
        exact mapLookup_mapSet_ne dst p.1 p.2 k (fun hkk => hpk hkk.symm)

/-- GCP platform status fields the merge engine reads: the
infrastructure-declared resource labels and tags and the organization ID. -/
structure GCPPlatformStatus where
  resourceLabels : Option (List (String × String))
  resourceTags : Option (List (String × String))
  organizationID : String
deriving Repr

/-- configv1.PlatformStatus: the GCP member may be absent. -/
structure PlatformStatus where
  gcp : Option GCPPlatformStatus
deriving Repr

/-- getInfraResourceLabels: builds the label map from the infrastructure's
platform status; nil when the status, its GCP member or its label list is
absent. -/
def getInfraResourceLabels (platformStatus : Option PlatformStatus) : Option StrMap :=
  match platformStatus with
  | some ps =>
    match ps.gcp with
    | some g =>
      match g.resourceLabels with
      | some ls => some (mapFromList ls)
      | none => none
    | none => none
  | none => none

/-- ocpDefaultLabelFmt applied to a cluster ID. -/
def ocpLabelKey (clusterID : String) : String :=
  "kubernetes-io-cluster-" ++ clusterID

/-- getOCPLabels: the synthesized cluster-ownership label, requiring a
non-empty cluster ID. -/
def getOCPLabels (clusterID : String) : Except String StrMap :=
  if clusterID == "" then
    Except.error "cluster ID required for generating OCP tag list"
  else
    Except.ok [(ocpLabelKey clusterID, "owned")]

/-- GetLabelsList: merges infrastructure-declared labels, per-resource user
labels and the synthesized ownership label (in that override order) and
enforces the 32-label ceilings. -/
def GetLabelsList (clusterID : String) (platform : Option PlatformStatus)
    (providerSpecLabels : Option (List (String × String))) : Except String StrMap :=
  match getOCPLabels clusterID with
  | Except.error e => Except.error e
  | Except.ok ocpLabels =>
    match getInfraResourceLabels platform, providerSpecLabels with
    | none, none => Except.ok ocpLabels
    | infraLabels, userLabels =>
      let labels := mapMerge (mapMerge (mapMerge []
        (infraLabels.getD [])) (userLabels.getD [])) ocpLabels
      if ocpLabels.length > 32 ∨ labels.length - ocpLabels.length > 32 then
        Except.error ("ocp can define upto 32 labels and user can define upto 32 labels,infrstructure.status.resourceLabels and Machine.Spec.ProviderSpec.Labels put together configured label count is " ++ toString labels.length)
      else
        Except.ok labels

theorem getLabelsList_ok_shape (clusterID : String) (platform : Option PlatformStatus)
    (user : Option (List (String × String))) (m : StrMap)
    (hok : GetLabelsList clusterID platform user = Except.ok m) :
    m = mapMerge (mapMerge (mapMerge [] ((getInfraResourceLabels platform).getD []))
      (user.getD [])) [(ocpLabelKey clusterID, "owned")] := by
  unfold GetLabelsList at hok
  by_cases hc : clusterID == ""
  · simp [getOCPLabels, hc] at hok
  · simp only [getOCPLabels, hc, Bool.false_eq_true, if_false] at hok
    cases hinf : getInfraResourceLabels platform with
    | none =>
      cases user with
      | none =>
        rw [hinf] at hok
        injection hok with h
        rw [← h]
        rfl
      | some us =>
        rw [hinf] at hok
        split at hok
        · contradiction
        · split at hok
          · exact absurd hok (by simp)
          · injection hok with h
            rw [← h]
    | some infra =>
      rw [hinf] at hok
      split at hok
      · contradiction
      · split at hok
        · exact absurd hok (by simp)
        · injection hok with h
          rw [← h]

/-- C5: whenever the label merge succeeds, the resulting map binds the
synthesized ownership key to the value "owned" (overriding any
infrastructure or user binding of that key), and on any other key bound by
both the infrastructure and the user labels the user (provider-spec) value
wins. -/
theorem getLabelsList_ownership (clusterID : String) (platform : Option PlatformStatus)
    (user : Option (List (String × String))) (m : StrMap)
    (hok : GetLabelsList clusterID platform user = Except.ok m) :
    mapLookup m (ocpLabelKey clusterID) = some "owned" ∧
    (∀ k vI vU, k ≠ ocpLabelKey clusterID →
      lastBind ((getInfraResourceLabels platform).getD []) k = some vI →
      lastBind (user.getD []) k = some vU →
      mapLookup m k = some vU) := by
  have hshape := getLabelsList_ok_shape clusterID platform user m hok
  subst hshape
  constructor
  · rw [mapLookup_mapMerge]
    simp [lastBind]
  · intro k vI vU hk hInf hUser
    have hocp : lastBind [(ocpLabelKey clusterID, "owned")] k = none := by
      have hb : (ocpLabelKey clusterID == k) = false :=
        beq_eq_false_iff_ne.mpr (fun hkk => hk hkk.symm)
      simp [lastBind, hb]
    rw [mapLookup_mapMerge]
    rw [hocp]
    rw [mapLookup_mapMerge]
    rw [hUser]

/-- Witness for C5 at a concrete input where the user labels collide with
the infrastructure labels and with the ownership key. -/
theorem getLabelsList_ownership_witness :
    mapLookup
      ((GetLabelsList "c1"
        (some ⟨some ⟨some [("shared", "infraV"), (ocpLabelKey "c1", "infraOwn")], none, "org"⟩⟩)
        (some [("shared", "userV"), (ocpLabelKey "c1", "userOwn")])).toOption.getD [])
      (ocpLabelKey "c1") = some "owned" ∧
    mapLookup
      ((GetLabelsList "c1"
        (some ⟨some ⟨some [("shared", "infraV"), (ocpLabelKey "c1", "infraOwn")], none, "org"⟩⟩)
        (some [("shared", "userV"), (ocpLabelKey "c1", "userOwn")])).toOption.getD [])
      "shared" = some "userV" := by
  have h := getLabelsList_ownership "c1"
    (some ⟨some ⟨some [("shared", "infraV"), (ocpLabelKey "c1", "infraOwn")], none, "org"⟩⟩)
    (some [("shared", "userV"), (ocpLabelKey "c1", "userOwn")]) _ rfl
  exact ⟨h.1, h.2 "shared" "infraV" "userV" (by decide) (by decide) (by decide)⟩

/-- Outcome of GetTagsList as a Go caller observes it: a run-time panic
(nil dereference of the platform status), a returned error, or a returned
tag-value list. -/
inductive TagsOutcome where
  | panicked
  | fails (msg : String)
  | ok (tags : List String)
deriving DecidableEq, Repr

/-- getInfraResourceTagsList: builds the tag map from the infrastructure's
platform status; nil when the status, its GCP member or its tag list is
absent. -/
def getInfraResourceTagsList (platformStatus : Option PlatformStatus) : Option StrMap :=
  match platformStatus with
  | some ps =>
    match ps.gcp with
    | some g =>
      match g.resourceTags with
      | some ts => some (mapFromList ts)
      | none => none
    | none => none
  | none => none

/-- getOrganizationID: the first non-empty source wins. -/
def getOrganizationID (source1 source2 : String) : String :=
  if source1 != "" then source1 else source2

/-- toTagValueList: renders each tag as orgID/key/value (the initial
length-below-zero guard is dead code kept from the source). -/
def toTagValueList (orgID : String) (tags : StrMap) : List String :=
  if tags.length < 0 then []
  else tags.map (fun p => orgID ++ "/" ++ p.1 ++ "/" ++ p.2)

/-- GetTagsList: merges infrastructure-declared tags with the provider
spec's user tags (user precedence) and enforces the 50-tag ceiling — but
only on the merge path taken when infrastructure tags are present; with no
infrastructure tags the user tags are returned directly. -/
def GetTagsList (platformStatus : Option PlatformStatus) (userTags : StrMap)
    (specOrganizationID : String) : TagsOutcome :=
  if ((getInfraResourceTagsList platformStatus).getD []).length < 0 ∧
      userTags.length < 0 then
    TagsOutcome.ok []
  else
    match platformStatus with
    | none => TagsOutcome.panicked
    | some ps =>
      match ps.gcp with
      | none => TagsOutcome.panicked
      | some g =>
        if g.organizationID == "" && specOrganizationID == "" then
          TagsOutcome.fails "organizationID must be defined either ininfrstructure.status or Machine.Spec.ProviderSpec"
        else
          match getInfraResourceTagsList platformStatus with
          | none =>
            TagsOutcome.ok (toTagValueList
              (getOrganizationID g.organizationID specOrganizationID) userTags)
          | some t =>
            if (mapMerge t userTags).length > 50 then
              TagsOutcome.fails ("maximum of 50 tags can be added to a VM instance, infrstructure.status.resourceTags Machine.Spec.ProviderSpec.UserTags put together configured tag count is " ++ toString (mapMerge t userTags).length)
            else
              TagsOutcome.ok (toTagValueList
                (getOrganizationID g.organizationID specOrganizationID)
                (mapMerge t userTags))

/-- Fifty-one distinct user tags. -/
def userTags51 : StrMap :=
  (List.range 51).map (fun i => ("k" ++ toString i, "v"))

/-- Platform status whose GCP member declares no resource tags but a
non-empty organization ID. -/
def psNoInfraTags : Option PlatformStatus :=
  some ⟨some ⟨none, none, "org"⟩⟩

/-- C6 counterexample: with no infrastructure-declared tags, a merged
infrastructure+user tag count of 51 (exceeding 50) is returned as a
51-entry tag list with no error — the 50-tag ceiling is not enforced on
this path. -/
theorem getTagsList_over50_counterexample :
    (mapMerge ((getInfraResourceTagsList psNoInfraTags).getD []) userTags51).length = 51 ∧
    50 < (mapMerge ((getInfraResourceTagsList psNoInfraTags).getD []) userTags51).length ∧
    GetTagsList psNoInfraTags userTags51 "" =
      TagsOutcome.ok (toTagValueList "org" userTags51) ∧
    (toTagValueList "org" userTags51).length = 51 := by
  refine ⟨by decide, by decide, rfl, by decide⟩

theorem mapMerge_single_length (X : StrMap) (k v : String) :
    (mapMerge X [(k, v)]).length = (X.filter (fun p => p.1 != k)).length + 1 := by
  simp [mapMerge, mapSet]

/-- C6 amended: a merged infrastructure+user label count exceeding 32 once
the ownership key is excluded always fails the label merge with an error
and no partial result; a merged infrastructure+user tag count exceeding 50
fails the tag merge with an error and no partial result whenever
infrastructure-declared tags are present — with no infrastructure tags the
user tags bypass the 50-tag ceiling (the counterexample). -/
theorem mergeCardinalityLimits :
    (∀ (clusterID : String) (platform : Option PlatformStatus)
        (user : Option (List (String × String))),
      ((mapMerge (mapMerge [] ((getInfraResourceLabels platform).getD []))
          (user.getD [])).filter
        (fun p => p.1 != ocpLabelKey clusterID)).length > 32 →
      ∃ e, GetLabelsList clusterID platform user = Except.error e) ∧
    (∀ (ps : Option PlatformStatus) (userTags : StrMap) (orgSpec : String)
        (t : StrMap),
      getInfraResourceTagsList ps = some t →
      (mapMerge t userTags).length > 50 →
      ∃ msg, GetTagsList ps userTags orgSpec = TagsOutcome.fails msg) := by
  constructor
  · intro clusterID platform user hcnt
    by_cases hc : clusterID == ""
    · exact ⟨"cluster ID required for generating OCP tag list",
        by simp [GetLabelsList, getOCPLabels, hc]⟩
    · unfold GetLabelsList
      simp only [getOCPLabels, hc, Bool.false_eq_true, if_false]
      cases hinf : getInfraResourceLabels platform with
      | none =>
        rw [hinf] at hcnt
        cases user with
        | none => simp [mapMerge, List.foldl] at hcnt
        | some us =>
          have hcond : [(ocpLabelKey clusterID, "owned")].length > 32 ∨
              (mapMerge (mapMerge (mapMerge []
                  ((none : Option StrMap).getD []))
                  ((some us : Option (List (String × String))).getD []))
                [(ocpLabelKey clusterID, "owned")]).length -
                [(ocpLabelKey clusterID, "owned")].length > 32 := by
            refine Or.inr ?_
            rw [mapMerge_single_length]
            simpa using hcnt
          exact ⟨_, if_pos hcond⟩
      | some infra =>
        rw [hinf] at hcnt
        have hcond : [(ocpLabelKey clusterID, "owned")].length > 32 ∨
            (mapMerge (mapMerge (mapMerge []
                ((some infra : Option StrMap).getD []))
                (user.getD []))
              [(ocpLabelKey clusterID, "owned")]).length -
              [(ocpLabelKey clusterID, "owned")].length > 32 := by
          refine Or.inr ?_
          rw [mapMerge_single_length]
          simpa using hcnt
        cases user with
        | none => exact ⟨_, if_pos hcond⟩
        | some us => exact ⟨_, if_pos hcond⟩
  · intro ps userTags orgSpec t hinf hcnt
    cases ps with
    | none => exact absurd hinf (by simp [getInfraResourceTagsList])
    | some ps' =>
      obtain ⟨gcp⟩ := ps'
      cases gcp with
      | none => exact absurd hinf (by simp [getInfraResourceTagsList])
      | some g =>
        obtain ⟨rl, rt, orgID⟩ := g
        cases rt with
        | none => exact absurd hinf (by simp [getInfraResourceTagsList])
        | some ts =>
          have ht : mapFromList ts = t := by
            simpa [getInfraResourceTagsList] using hinf
          subst ht
          have hdead : ¬(((getInfraResourceTagsList
              (some ⟨some ⟨rl, some ts, orgID⟩⟩)).getD []).length < 0 ∧
              userTags.length < 0) := fun h => Nat.not_lt_zero _ h.1
          unfold GetTagsList
          rw [if_neg hdead]
          by_cases horg : (orgID == "" && orgSpec == "") = true
          · exact ⟨_, if_pos horg⟩
          · exact ⟨_, Eq.trans (if_neg horg) (if_pos hcnt)⟩

/-- Witness for C6's amended theorem: 33 user labels with no infrastructure
labels fail the label merge, and 51 infrastructure tags with no user tags
fail the tag merge. -/
theorem mergeCardinalityLimits_witness :
    (∃ e, GetLabelsList "c1" none
      (some ((List.range 33).map (fun i => ("k" ++ toString i, "v")))) =
        Except.error e) ∧
    (∃ msg, GetTagsList
      (some ⟨some ⟨none, some ((List.range 51).map (fun i => ("k" ++ toString i, "v"))), "org"⟩⟩)
      [] "" = TagsOutcome.fails msg) := by
  constructor
  · exact mergeCardinalityLimits.1 "c1" none
      (some ((List.range 33).map (fun i => ("k" ++ toString i, "v"))))
      (by decide)
  · exact mergeCardinalityLimits.2
      (some ⟨some ⟨none, some ((List.range 51).map (fun i => ("k" ++ toString i, "v"))), "org"⟩⟩)
      [] "" _ rfl (by decide)

/-- windowsScriptMetadataKey constant of the reconciler. -/
def windowsScriptMetadataKey : String := "sysprep-specialize-script-ps1"

/-- Modelled from the spec: IsMachineOSWindows of the external windows
user-data helper (the repository consumes it from a dependency) — the
machine's os-id label identifies the Windows OS variant. -/
def IsMachineOSWindows (machine : GCPMachine) : Bool :=
  lookupD machine.labels "machine.openshift.io/os-id" == "Windows"

/-- Drops pat from the front of s when present. -/
def stripLeadList (s pat : List Char) : List Char :=
  if listStartsWith s pat then s.drop pat.length else s

/-- Drops pat from the end of s when present. -/
def stripTrailList (s pat : List Char) : List Char :=
  if listStartsWith s.reverse pat.reverse then s.take (s.length - pat.length) else s

/-- Modelled from the spec: RemovePowershellTags of the external windows
user-data helper strips an enclosing powershell wrapper tag pair from the
script payload. -/
def RemovePowershellTags (userData : String) : String :=
  String.mk (stripTrailList
    (stripLeadList userData.data "<powershell>".data) "</powershell>".data)

theorem listStartsWith_append (p r : List Char) :
    listStartsWith (p ++ r) p = true := by
  induction p with
  | nil => cases r <;> rfl
  | cons c cs ih => simp [listStartsWith, ih]

theorem stripLeadList_append (p r : List Char) :
    stripLeadList (p ++ r) p = r := by
  rw [stripLeadList, if_pos (listStartsWith_append p r)]
  exact List.drop_left p r

theorem stripTrailList_append (s pat : List Char) :
    stripTrailList (s ++ pat) pat = s := by
  rw [stripTrailList]
  rw [List.reverse_append]
  rw [if_pos (listStartsWith_append pat.reverse s.reverse)]
  rw [List.length_append, Nat.add_sub_cancel]
  exact List.take_left s pat

theorem removePowershellTags_strips (s : String) :
    RemovePowershellTags ("<powershell>" ++ s ++ "</powershell>") = s := by
  rw [RemovePowershellTags]
  rw [String.data_append, String.data_append]
  rw [List.append_assoc]
  rw [stripLeadList_append]
  rw [stripTrailList_append]

/-- In-place update of the first item's value, modelling
`metadataItems[0].Value = metadata.Value`. -/
def setHeadValue (items : List (String × Option String)) (v : Option String) :
    List (String × Option String) :=
  match items with
  | [] => []
  | (k, _) :: rest => (k, v) :: rest

/-- Metadata construction of Reconciler.create: one initial entry under the
user-data key (the Windows-specific key, with wrapper tags stripped, for a
Windows machine), then each provider-spec metadata entry either overrides
that entry's value (same key) or is appended. -/
def buildMetadataItems (machine : GCPMachine) (userDataIn : String)
    (specMetadata : List (String × Option String)) :
    List (String × Option String) :=
  let userdataKey :=
    if IsMachineOSWindows machine then windowsScriptMetadataKey else "user-data"
  let userData :=
    if IsMachineOSWindows machine then RemovePowershellTags userDataIn else userDataIn
  specMetadata.foldl
    (fun items md =>
      if md.1 == userdataKey then setHeadValue items md.2 else items ++ [md])
    [(userdataKey, some userData)]

/-- Last value a list of spec metadata entries declares for key k. -/
def lastValue (l : List (String × Option String)) (k : String) :
    Option (Option String) :=
  match l with
  | [] => none
  | p :: rest =>
    match lastValue rest k with
    | some v => some v
    | none => if p.1 == k then some p.2 else none

theorem buildMetadataFold_shape (key : String) (l : List (String × Option String))
    (v0 : Option String) (rest0 : List (String × Option String))
    (hrest : ∀ it ∈ rest0, (it.1 == key) = false) :
    ∃ rest1,
      l.foldl (fun items md =>
          if md.1 == key then setHeadValue items md.2 else items ++ [md])
        ((key, v0) :: rest0) =
        (key, (lastValue l key).getD v0) :: rest1 ∧
      ∀ it ∈ rest1, (it.1 == key) = false := by
  induction l generalizing v0 rest0 with
  | nil => exact ⟨rest0, rfl, hrest⟩
  | cons md l' ih =>
    by_cases hmd : (md.1 == key) = true
    · rw [List.foldl_cons]
      rw [if_pos hmd]
      obtain ⟨rest1, hr, hk⟩ := ih md.2 rest0 hrest
      refine ⟨rest1, ?_, hk⟩
      rw [show setHeadValue ((key, v0) :: rest0) md.2 = (key, md.2) :: rest0 from rfl]
      rw [hr]
      cases hlast : lastValue l' key with
      | some v => simp [lastValue, hlast]
      | none => simp [lastValue, hlast, hmd]
    · rw [List.foldl_cons]
      rw [if_neg hmd]
      have hmd' : (md.1 == key) = false := by
        cases h : (md.1 == key) with
        | true => exact absurd h hmd
        | false => rfl
      have happ : ((key, v0) :: rest0) ++ [md] = (key, v0) :: (rest0 ++ [md]) := rfl
      rw [happ]
      have hnew : ∀ it ∈ rest0 ++ [md], (it.1 == key) = false := by
        intro it hit
        rcases List.mem_append.mp hit with h1 | h2
        · exact hrest it h1
        · rcases List.mem_singleton.mp h2 with rfl
          exact hmd'
      obtain ⟨rest1, hr, hk⟩ := ih v0 (rest0 ++ [md]) hnew
      refine ⟨rest1, ?_, hk⟩
      rw [hr]
      cases hlast : lastValue l' key with
      | some v => simp [lastValue, hlast]
      | none => simp [lastValue, hlast, hmd']

/-- C7: for a machine identified as the Windows OS variant, the metadata
sent on create places the user data under the Windows-specific key with the
enclosing powershell wrapper tags stripped, a same-keyed provider-spec
metadata entry replaces that value, and exactly one entry with that key is
sent. -/
theorem windowsMetadata (machine : GCPMachine) (userData : String)
    (specMetadata : List (String × Option String))
    (hwin : IsMachineOSWindows machine = true) :
    (∃ rest,
      buildMetadataItems machine userData specMetadata =
        (windowsScriptMetadataKey,
          (lastValue specMetadata windowsScriptMetadataKey).getD
            (some (RemovePowershellTags userData))) :: rest) ∧
    ((buildMetadataItems machine userData specMetadata).filter
      (fun it => it.1 == windowsScriptMetadataKey)).length = 1 ∧
    (∀ s, RemovePowershellTags ("<powershell>" ++ s ++ "</powershell>") = s) := by
  obtain ⟨rest1, hr, hk⟩ := buildMetadataFold_shape windowsScriptMetadataKey
    specMetadata (some (RemovePowershellTags userData)) []
    (fun it hit => absurd hit (List.not_mem_nil it))
  have hb : buildMetadataItems machine userData specMetadata =
      (windowsScriptMetadataKey,
        (lastValue specMetadata windowsScriptMetadataKey).getD
          (some (RemovePowershellTags userData))) :: rest1 := by
    unfold buildMetadataItems
    rw [hwin]
    exact hr
  have hfilt : rest1.filter (fun it => it.1 == windowsScriptMetadataKey) = [] :=
    List.filter_eq_nil_iff.mpr (fun it hit => by simp [hk it hit])
  refine ⟨⟨rest1, hb⟩, ?_, removePowershellTags_strips⟩
  rw [hb, List.filter_cons]
  simp [hfilt]

/-- A machine labelled as the Windows OS variant. -/
def machineWin : GCPMachine :=
  { name := "m2",
    labels := [("machine.openshift.io/os-id", "Windows"),
               (machineClusterIDLabel, "CLUSTERID")],
    providerID := none }

/-- Witness for C7: wrapped user data with a same-keyed spec entry — the
spec entry's value wins and the wrapper tags strip to the bare script. -/
theorem windowsMetadata_witness :
    (∃ rest, buildMetadataItems machineWin "<powershell>script</powershell>"
      [(windowsScriptMetadataKey, some "proper"), ("other", some "x")] =
        (windowsScriptMetadataKey, some "proper") :: rest) ∧
    RemovePowershellTags ("<powershell>" ++ "script" ++ "</powershell>") = "script" := by
  obtain ⟨⟨rest, hr⟩, hcnt, hstrip⟩ := windowsMetadata machineWin
    "<powershell>script</powershell>"
    [(windowsScriptMetadataKey, some "proper"), ("other", some "x")]
    (by decide)
  exact ⟨⟨rest, hr⟩, hstrip "script"⟩

/-- One status condition: type, status, reason, message. -/
structure GCPCondition where
  ctype : String
  status : String
  reason : String
  message : String
deriving DecidableEq, Repr

/-- GCPMachineProviderStatus: instance ID, instance state and conditions. -/
structure GCPMachineProviderStatus where
  instanceId : Option String
  instanceState : Option String
  conditions : List GCPCondition
deriving DecidableEq, Repr

/-- One machine address entry. -/
structure MachineAddress where
  atype : String
  address : String
deriving DecidableEq, Repr

/-- The machine's status subresource fields Close touches: the serialized
provider-status payload (modelled as the decoded document itself, since
serialization is total and injective on these fields), the address list and
the last-updated timestamp. -/
structure MachineStatus where
  providerStatusRaw : Option GCPMachineProviderStatus
  addresses : List MachineAddress
  lastUpdated : Option Nat
deriving DecidableEq, Repr

/-- machineScope state relevant to Close: the working provider status, the
machine's status fields and spec payload, and the pristine snapshots
captured at construction (deep copies never written afterwards). -/
structure MachineScopeState where
  providerStatus : GCPMachineProviderStatus
  machineStatus : MachineStatus
  providerSpec : GCPMachineProviderSpec
  machineSpecRaw : Option GCPMachineProviderSpec
  origProviderStatus : GCPMachineProviderStatus
  origMachineAddresses : List MachineAddress

/-- machineScope.setMachineStatus: skipped entirely when both the provider
status and the address list semantically equal the pristine snapshots;
otherwise re-serializes the status payload and advances LastUpdated. -/
def setMachineStatus (s : MachineScopeState) (now : Nat) : MachineScopeState :=
  if s.providerStatus = s.origProviderStatus ∧
      s.machineStatus.addresses = s.origMachineAddresses then
    s
  else
    { s with machineStatus :=
      { s.machineStatus with
        providerStatusRaw := some s.providerStatus,
        lastUpdated := some now } }

/-- machineScope.setMachineSpec: re-serializes the provider spec onto the
machine. -/
def setMachineSpec (s : MachineScopeState) : MachineScopeState :=
  { s with machineSpecRaw := some s.providerSpec }

/-- machineScope.Close: status first, then spec (the merge patches then
target the same baseline). -/
def scopeClose (s : MachineScopeState) (now : Nat) : MachineScopeState :=
  setMachineSpec (setMachineStatus s now)

/-- C8: Close leaves the status payload and LastUpdated untouched exactly
when provider status and addresses equal the pristine snapshots; otherwise
it re-serializes the payload and advances LastUpdated to the present; the
timestamp can only move on a genuine status change; and the pristine
snapshots are never mutated. -/
theorem scopeClose_statusFrame (s : MachineScopeState) (now : Nat) :
    (s.providerStatus = s.origProviderStatus ∧
        s.machineStatus.addresses = s.origMachineAddresses →
      (scopeClose s now).machineStatus.providerStatusRaw =
        s.machineStatus.providerStatusRaw ∧
      (scopeClose s now).machineStatus.lastUpdated =
        s.machineStatus.lastUpdated) ∧
    (¬(s.providerStatus = s.origProviderStatus ∧
        s.machineStatus.addresses = s.origMachineAddresses) →
      (scopeClose s now).machineStatus.providerStatusRaw = some s.providerStatus ∧
      (scopeClose s now).machineStatus.lastUpdated = some now) ∧
    ((scopeClose s now).machineStatus.lastUpdated ≠ s.machineStatus.lastUpdated →
      ¬(s.providerStatus = s.origProviderStatus ∧
        s.machineStatus.addresses = s.origMachineAddresses)) ∧
    (scopeClose s now).origProviderStatus = s.origProviderStatus ∧
    (scopeClose s now).origMachineAddresses = s.origMachineAddresses := by
  by_cases h : s.providerStatus = s.origProviderStatus ∧
      s.machineStatus.addresses = s.origMachineAddresses
  · have hc : scopeClose s now = setMachineSpec s := by
      unfold scopeClose setMachineStatus
      rw [if_pos h]
    refine ⟨fun _ => ⟨by rw [hc]; rfl, by rw [hc]; rfl⟩,
      fun hn => absurd h hn,
      fun hts => absurd (by rw [hc]; rfl) hts,
      by rw [hc]; rfl, by rw [hc]; rfl⟩
  · have hc : scopeClose s now = setMachineSpec
        { s with machineStatus :=
          { s.machineStatus with
            providerStatusRaw := some s.providerStatus,
            lastUpdated := some now } } := by
      unfold scopeClose setMachineStatus
      rw [if_neg h]
    exact ⟨fun hp => absurd hp h,
      fun _ => ⟨by rw [hc]; rfl, by rw [hc]; rfl⟩,
      fun _ => h,
      by rw [hc]; rfl, by rw [hc]; rfl⟩

/-- A provider status reporting a running instance. -/
def pstatusRun : GCPMachineProviderStatus :=
  { instanceId := some "123", instanceState := some "RUNNING", conditions := [] }

/-- A scope whose working status equals its pristine snapshot. -/
def scopeUnchanged : MachineScopeState :=
  { providerStatus := { instanceId := none, instanceState := none, conditions := [] },
    machineStatus := { providerStatusRaw := none, addresses := [], lastUpdated := some 5 },
    providerSpec := specBasic,
    machineSpecRaw := none,
    origProviderStatus := { instanceId := none, instanceState := none, conditions := [] },
    origMachineAddresses := [] }

/-- The same scope after reconciliation changed its provider status. -/
def scopeChanged : MachineScopeState :=
  { scopeUnchanged with providerStatus := pstatusRun }

/-- Witness for C8: the pristine-equal scope keeps payload and timestamp;
the changed scope re-serializes and advances the timestamp. -/
theorem scopeClose_statusFrame_witness :
    (scopeClose scopeUnchanged 9).machineStatus.providerStatusRaw = none ∧
    (scopeClose scopeUnchanged 9).machineStatus.lastUpdated = some 5 ∧
    (scopeClose scopeChanged 9).machineStatus.providerStatusRaw = some pstatusRun ∧
    (scopeClose scopeChanged 9).machineStatus.lastUpdated = some 9 := by
  obtain ⟨h1, -, -, -, -⟩ := scopeClose_statusFrame scopeUnchanged 9
  obtain ⟨-, h2, -, -, -⟩ := scopeClose_statusFrame scopeChanged 9
  obtain ⟨ha, hb⟩ := h1 ⟨rfl, rfl⟩
  obtain ⟨hcx, hd⟩ := h2 (by intro hp; exact absurd hp.1 (by decide))
  exact ⟨ha, hb, hcx, hd⟩

/-- Go strings.HasPrefix on the character lists of the two strings. -/
def strStarts (s pat : String) : Bool :=
  listStartsWith s.data pat.data

/-- containsString helper of the reconciler. -/
def containsString (sli : List String) (str : String) : Bool :=
  match sli with
  | [] => false
  | elem :: rest => if elem == str then true else containsString rest str

/-- supportedGpuTypes map of the reconciler; a Go map read yields "" for an
unknown accelerator type. -/
def supportedGpuTypes : String → String
  | "nvidia-tesla-k80" => "NVIDIA_K80_GPUS"
  | "nvidia-tesla-p100" => "NVIDIA_P100_GPUS"
  | "nvidia-tesla-v100" => "NVIDIA_V100_GPUS"
  | "nvidia-tesla-a100" => "NVIDIA_A100_GPUS"
  | "nvidia-tesla-p4" => "NVIDIA_P4_GPUS"
  | "nvidia-tesla-t4" => "NVIDIA_T4_GPUS"
  | "nvidia-a100-80gb" => "NVIDIA_A100_80GB_GPUS"
  | _ => ""

/-- Outcome of checkQuota / validateGuestAccelerators as a Go caller
observes it: a run-time panic (out-of-bounds index), an
InvalidConfiguration error, or success. -/
inductive QuotaOutcome where
  | panicked
  | fails (msg : String)
  | ok
deriving DecidableEq, Repr

/-- Quota scan loop of checkQuota: the first entry matching the metric
decides; reaching the last entry without a match reports no quota; an
empty quota list falls through to success. -/
def quotaCheckLoop (metric : String) (count : Int) : List GCPQuota → QuotaOutcome
  | [] => QuotaOutcome.ok
  | q :: rest =>
    if q.metric == metric then
      if q.usage + count > q.limit then
        QuotaOutcome.fails ("Quota exceeded. Metric: " ++ metric ++ ".")
      else
        QuotaOutcome.ok
    else
      match rest with
      | [] => QuotaOutcome.fails ("No quota found. Metric: " ++ metric ++ ".")
      | _ :: _ => quotaCheckLoop metric count rest

/-- Reconciler.checkQuota: fetches the region, then unconditionally reads
element 0 of the accelerator list (a panic when the list is empty), checks
the accelerator type's availability and supported-metric mapping, and scans
the region quotas under the (possibly preemptible-prefixed) metric. -/
def checkQuota (svc : ComputeSvc) (providerSpec : GCPMachineProviderSpec)
    (projectID : String) (guestAccelerators : List GCPGPUConfig) : QuotaOutcome :=
  match svc.regionGet projectID providerSpec.region with
  | Except.error e =>
    QuotaOutcome.fails ("Failed to get region " ++ providerSpec.region ++
      " via compute service: " ++ e)
  | Except.ok region =>
    match guestAccelerators with
    | [] => QuotaOutcome.panicked
    | accelerator :: _ =>
      match svc.acceleratorTypeGet projectID providerSpec.zone accelerator.type with
      | Except.error e =>
        QuotaOutcome.fails ("AcceleratorType " ++ accelerator.type ++
          " not available in the zone " ++ providerSpec.zone ++ " : " ++ e)
      | Except.ok _ =>
        if supportedGpuTypes accelerator.type == "" then
          QuotaOutcome.fails ("Unsupported accelerator type " ++ accelerator.type)
        else
          quotaCheckLoop
            (if providerSpec.preemptible then
              "PREEMPTIBLE_" ++ supportedGpuTypes accelerator.type
            else
              supportedGpuTypes accelerator.type)
            accelerator.count region.quotas

/-- Reconciler.validateGuestAccelerators: family checks, then the
GPU-compatibility listing decides whether the fixed A2 accelerators or the
spec's own GPU list are passed to checkQuota. -/
def validateGuestAccelerators (svc : ComputeSvc)
    (providerSpec : GCPMachineProviderSpec) (projectID : String) : QuotaOutcome :=
  if providerSpec.gpus.length = 0 ∧ strStarts providerSpec.machineType "a2-" = false then
    QuotaOutcome.ok
  else if providerSpec.gpus.length > 0 ∧ strStarts providerSpec.machineType "a2-" = true then
    QuotaOutcome.fails "A2 Machine types have pre-attached guest accelerators. Adding additional guest accelerators is not supported"
  else if strStarts providerSpec.machineType "n1-" = false ∧
      strStarts providerSpec.machineType "a2-" = false then
    QuotaOutcome.fails ("MachineType " ++ providerSpec.machineType ++
      " does not support accelerators. Only A2 and N1 machine type families support guest acceleartors.")
  else
    match svc.gpuCompatibleMachineTypesList providerSpec.projectID providerSpec.zone with
    | (a2MachineFamily, n1MachineFamily) =>
      match a2MachineFamily.find? (fun p => p.1 == providerSpec.machineType) with
      | some p =>
        checkQuota svc providerSpec projectID [{ type := p.2.type, count := p.2.count }]
      | none =>
        if containsString n1MachineFamily providerSpec.machineType then
          checkQuota svc providerSpec projectID providerSpec.gpus
        else
          QuotaOutcome.fails ("MachineType " ++ providerSpec.machineType ++
            " is not available in the zone " ++ providerSpec.zone ++ ".")

/-- A compute service whose GPU-compatibility listing places the a2-
machine type only in the N1-family list. -/
def svcA2 : ComputeSvc :=
  { svcAllOk with gpuCompatibleMachineTypesList := fun _ _ => ([], ["a2-custom"]) }

/-- An a2-family machine type with an empty GPU list. -/
def specA2 : GCPMachineProviderSpec :=
  { specBasic with machineType := "a2-custom", gpus := [] }

/-- C10: checkQuota reads element 0 of its accelerator list whenever the
region fetch succeeds, panicking on an empty list; and
validateGuestAccelerators reaches that panic for an a2-prefixed machine
type with an empty GPU list that the compatibility listing places only in
the N1-family list. -/
theorem checkQuota_emptyIndex :
    (∀ (svc : ComputeSvc) (providerSpec : GCPMachineProviderSpec)
        (projectID : String) (region : GCPRegion),
      svc.regionGet projectID providerSpec.region = Except.ok region →
      checkQuota svc providerSpec projectID [] = QuotaOutcome.panicked) ∧
    specA2.gpus = [] ∧
    strStarts specA2.machineType "a2-" = true ∧
    validateGuestAccelerators svcA2 specA2 "proj" = QuotaOutcome.panicked := by
  refine ⟨?_, rfl, by decide, by decide⟩
  intro svc providerSpec projectID region hreg
  unfold checkQuota
  rw [hreg]

/-- Witness for C10's universal part at the concrete service and spec. -/
theorem checkQuota_emptyIndex_witness :
    checkQuota svcA2 specA2 "proj" [] = QuotaOutcome.panicked := by
  exact checkQuota_emptyIndex.1 svcA2 specA2 "proj" ⟨[]⟩ rfl
